import Mathlib

/-!
Verification of the pool/dispatch/shutdown subsystem and the HTTP
connection handler of a small Rust web server, via a shallow embedding.

Sources embedded:
- `src/src/thread_pool/thread_pool.rs`: `ThreadPool::new`, `ThreadPool::execute`,
  `impl Drop for ThreadPool`, `Worker::new` (the worker loop), `Message`,
  `PoolCreationError`.
- `src/src/main.rs`: `handle_connection`.

Jobs are opaque closures in the source; here each job is identified by a `Nat`.
Channels, mutexes and threads are modelled by explicit state and event traces.
-/

namespace RustWebServer

/-- Rust: `pub struct PoolCreationError;` -/
inductive PoolCreationError where
  | mk
deriving DecidableEq, Repr

/-- Rust: `enum Message { NewJob(Job), Terminate }`. A `Job` is an opaque
closure; we identify each job by a natural number. -/
inductive Message where
  | newJob (job : Nat)
  | terminate
deriving DecidableEq, Repr

/-- Rust: `struct Worker { id: usize, thread: Option<JoinHandle<()>> }`.
`receiver` records which channel's receiving endpoint (the shared
`Arc<Mutex<Receiver<Message>>>`) this worker's thread captured; `thread` is
`some ()` while the join handle is present (it is `take`n at join time). -/
structure Worker where
  id : Nat
  receiver : Nat
  thread : Option Unit
deriving DecidableEq, Repr

/-- Rust: `struct ThreadPool { workers: Vec<Worker>, sender: mpsc::Sender<Message> }`.
`sender` records which channel's sending endpoint the pool owns. -/
structure ThreadPool where
  workers : List Worker
  sender : Nat
deriving DecidableEq, Repr

/-- Rust: `Worker::new(id, reciever)` spawns the thread (so the join handle is
present) capturing the shared receiving endpoint. -/
def Worker.new (id : Nat) (receiver : Nat) : Worker :=
  { id := id, receiver := receiver, thread := some () }

/-- Rust: `ThreadPool::new(size)`. Returns `Err(PoolCreationError)` when
`size <= 0`; otherwise allocates one channel (identified `0`), wraps its
receiving endpoint for sharing, spawns workers with ids `0..size`, and returns
the pool holding the workers and the sending endpoint of that same channel. -/
def ThreadPool.new (size : Nat) : Except PoolCreationError ThreadPool :=
  if size ≤ 0 then
    .error PoolCreationError.mk
  else
    let channel := 0
    let workers := (List.range size).map (fun id => Worker.new id channel)
    .ok { workers := workers, sender := channel }

/-- State of the dispatch channel as seen from the sending endpoint:
whether the consuming side is still alive, and the queued messages. -/
structure ChannelState where
  receiverAlive : Bool
  queue : List Message
deriving DecidableEq, Repr

/-- Rust: `mpsc::SendError` (the error `Sender::send` returns once the
receiving side has been dropped). -/
inductive SendError where
  | mk
deriving DecidableEq, Repr

/-- Rust `Sender::send`: enqueues the message if the consuming side is alive,
otherwise returns `Err(SendError)`. -/
def ChannelState.send (st : ChannelState) (m : Message) : Except SendError ChannelState :=
  if st.receiverAlive then
    .ok { st with queue := st.queue ++ [m] }
  else
    .error SendError.mk

/-- Possible outcomes of a call to `ThreadPool::execute` as observed by the
caller: normal return, an error value returned to the caller, or a panic. -/
inductive ExecOutcome where
  | ok (st : ChannelState)
  | errorResult (e : SendError)
  | panicked
deriving DecidableEq, Repr

/-- Rust: `ThreadPool::execute` does
`self.sender.send(Message::NewJob(job)).unwrap();` — the `Err` case of `send`
is `unwrap`ped, which panics; no error value is returned to the caller. -/
def ThreadPool.execute (st : ChannelState) (job : Nat) : ExecOutcome :=
  match st.send (.newJob job) with
  | .ok st2 => .ok st2
  | .error _ => .panicked

/-- The primitive actions `<ThreadPool as Drop>::drop` performs, in order. -/
inductive DropAction where
  | sendTerminate
  | joinWorker (id : Nat)
deriving DecidableEq, Repr

/-- Rust: `impl Drop for ThreadPool`: first `for _ in &self.workers` send one
`Message::Terminate`; then `for worker in &mut self.workers`, `take` the join
handle and, if present, `join` it. -/
def ThreadPool.dropActions (p : ThreadPool) : List DropAction :=
  (p.workers.map (fun _ => DropAction.sendTerminate)) ++
  (p.workers.filterMap (fun w => w.thread.map (fun _ => DropAction.joinWorker w.id)))

/-- State of a worker's loop: `waiting` while the loop is live (blocked in or
about to call `recv`), `exited` once `Terminate` broke the loop and the thread
returned. -/
inductive WorkerState where
  | waiting
  | exited
deriving DecidableEq, Repr

/-- One receive-and-act iteration of the worker loop from the live state
(Rust: the `match message` body): `NewJob(job)` runs the job and loops back;
`Terminate` breaks the loop. Returns the new state and the jobs executed. -/
def workerStep : Message → WorkerState × List Nat
  | .newJob j => (.waiting, [j])
  | .terminate => (.exited, [])

/-- The worker loop over a stream of messages handed to this worker.
Once the loop has been broken the thread has returned: no further message is
dequeued or executed. Returns the final state and all jobs executed, in order. -/
def workerRun : WorkerState → List Message → WorkerState × List Nat
  | s, [] => (s, [])
  | .exited, _ => (.exited, [])
  | .waiting, m :: rest =>
      let step := workerStep m
      let tail := workerRun step.1 rest
      (tail.1, step.2 ++ tail.2)

/-- Primitive events inside one iteration of the worker loop, for the lock
discipline on the shared receiving endpoint. -/
inductive LockEvent where
  | acquire
  | recvMsg (m : Message)
  | release
  | execJob (job : Nat)
deriving DecidableEq, Repr

/-- One iteration of the worker loop as its event sequence. In the source the
`MutexGuard` produced by `reciever.lock()` is a temporary of the
`let message = reciever.lock()...recv().unwrap();` statement, so it is dropped
— the lock released — when that statement ends, before the `match` on the
message runs the job. -/
def workerIterEvents : Message → List LockEvent
  | .newJob j =>
      [LockEvent.acquire, LockEvent.recvMsg (.newJob j), LockEvent.release,
       LockEvent.execJob j]
  | .terminate =>
      [LockEvent.acquire, LockEvent.recvMsg .terminate, LockEvent.release]

/-- The worker ids joined (in order) by a sequence of teardown actions. -/
def joinedIds (acts : List DropAction) : List Nat :=
  acts.filterMap (fun a =>
    match a with
    | DropAction.joinWorker i => some i
    | DropAction.sendTerminate => none)

/-! ## HTTP layer: `handle_connection` from `src/src/main.rs`

The request buffer is modelled as a list of bytes (`Nat`); the static files
`hello.html` and `404.html` are parameters (`String`), since
`handle_connection` reads them from disk. Rust's `String::len` is the UTF-8
byte length, hence `String.utf8ByteSize` below. -/

/-- The byte string `b"GET / HTTP/1.1\r\n"` (16 bytes) matched by
`buffer.starts_with(...)` in the source. -/
def rootRequestLine : List Nat :=
  [71, 69, 84, 32, 47, 32, 72, 84, 84, 80, 47, 49, 46, 49, 13, 10]

/-- Rust: `let mut buffer = [0; 1024]; stream.read(&mut buffer)`. Given the
bytes available on the stream, the resulting buffer holds the first at most
1024 of them, the remaining positions staying zero. -/
def readBuffer (data : List Nat) : List Nat :=
  data.take 1024 ++ List.replicate (1024 - (data.take 1024).length) 0

/-- Rust: `handle_connection`, branch selection and response formatting. Takes
the filled 1024-byte buffer and the contents of `hello.html` and `404.html`;
returns the bytes written to the stream (as a string, as `format!` builds it). -/
def handle_connection (buffer : List Nat) (helloHtml notFoundHtml : String) : String :=
  if rootRequestLine.isPrefixOf buffer then
    "HTTP/1.1 200 OK" ++ "\r\nContent-Length: " ++
      toString helloHtml.utf8ByteSize ++ "\r\n\r\n" ++ helloHtml
  else
    let status_line := "HTTP/1.1 404 NOT FOUND"
    status_line ++ "\r\nContent-Length: " ++
      toString notFoundHtml.utf8ByteSize ++ "\r\n\r\n" ++ notFoundHtml

/-! ## Helper lemmas -/

theorem new_ok_of_pos (n : Nat) (h : 1 ≤ n) :
    ThreadPool.new n =
      .ok { workers := (List.range n).map (fun id => Worker.new id 0), sender := 0 } := by
  unfold ThreadPool.new
  rw [if_neg (by omega)]

theorem workerRun_exited (msgs : List Message) :
    workerRun WorkerState.exited msgs = (WorkerState.exited, []) := by
  cases msgs <;> rfl

/-! ## Claims -/

/-- C2: `Pool::new(size)` returns `Err(PoolCreationError)` when `size == 0`
(creating no threads), and returns `Ok(pool)` for every `size ≥ 1`. -/
theorem c2_new_zero_errs_pos_succeeds :
    ThreadPool.new 0 = .error PoolCreationError.mk ∧
    ∀ n, 1 ≤ n → ∃ p, ThreadPool.new n = .ok p := by
  constructor
  · rfl
  · intro n hn
    exact ⟨_, new_ok_of_pos n hn⟩

/-- Witness for C2 at `n = 3`. -/
theorem c2_new_zero_errs_pos_succeeds_witness :
    ThreadPool.new 0 = .error PoolCreationError.mk ∧
    ∃ p, ThreadPool.new 3 = .ok p :=
  ⟨c2_new_zero_errs_pos_succeeds.1, c2_new_zero_errs_pos_succeeds.2 3 (by decide)⟩

/-- C5: for every `size ≥ 1`, `Pool::new(size)` allocates one channel, shares
its receiving endpoint among all workers, spawns exactly `size` workers with
ids exactly `0..size`, and returns a pool holding all those workers and the
sole sending endpoint (of that same channel). -/
theorem c5_new_structure (n : Nat) (hn : 1 ≤ n) :
    ∃ p, ThreadPool.new n = .ok p ∧
      p.workers.length = n ∧
      p.workers.map Worker.id = List.range n ∧
      (∀ w ∈ p.workers, w.receiver = p.sender) := by
  refine ⟨_, new_ok_of_pos n hn, ?_, ?_, ?_⟩
  · simp
  · show ((List.range n).map (fun id => Worker.new id 0)).map Worker.id = List.range n
    rw [List.map_map]
    exact List.map_id (List.range n)
  · intro w hw
    simp only [List.mem_map, List.mem_range] at hw
    obtain ⟨id, _, rfl⟩ := hw
    rfl

/-- Witness for C5 at `n = 2`. -/
theorem c5_new_structure_witness :
    ∃ p, ThreadPool.new 2 = .ok p ∧
      p.workers.length = 2 ∧
      p.workers.map Worker.id = List.range 2 ∧
      (∀ w ∈ p.workers, w.receiver = p.sender) :=
  c5_new_structure 2 (by decide)

/-- C9: `Pool::new` is total and never panics: for every `size` it returns a
`Result` value — `Err(PoolCreationError)` exactly when `size = 0` and `Ok`
otherwise (despite the doc comment's claim that it panics for `size ≤ 0`). -/
theorem c9_new_total_no_panic (size : Nat) :
    (ThreadPool.new size = .error PoolCreationError.mk ↔ size = 0) ∧
    (size ≠ 0 → ∃ p, ThreadPool.new size = .ok p) := by
  constructor
  · constructor
    · intro h
      by_contra hne
      rw [new_ok_of_pos size (by omega)] at h
      exact Except.noConfusion h
    · rintro rfl
      rfl
  · intro h
    exact ⟨_, new_ok_of_pos size (by omega)⟩

/-- Witness for C9 at `size = 1`. -/
theorem c9_new_total_no_panic_witness :
    (ThreadPool.new 1 = .error PoolCreationError.mk ↔ 1 = 0) ∧
    ∃ p, ThreadPool.new 1 = .ok p :=
  ⟨(c9_new_total_no_panic 1).1, (c9_new_total_no_panic 1).2 (by decide)⟩

/-- C4: the worker's receive-and-act step runs a received job exactly once and
returns to the waiting state; on `Terminate` it exits the loop into the
terminal `exited` state, after which no further message is dequeued or
executed (also: nothing after a `Terminate` in this worker's message stream is
ever executed). -/
theorem c4_worker_step_terminal :
    (∀ j, workerStep (Message.newJob j) = (WorkerState.waiting, [j])) ∧
    workerStep Message.terminate = (WorkerState.exited, []) ∧
    (∀ rest, workerRun WorkerState.waiting (Message.terminate :: rest) =
      (WorkerState.exited, [])) ∧
    (∀ msgs, workerRun WorkerState.exited msgs = (WorkerState.exited, [])) := by
  refine ⟨fun j => rfl, rfl, fun rest => ?_, workerRun_exited⟩
  show ((workerRun WorkerState.exited rest).1, [] ++ (workerRun WorkerState.exited rest).2) =
    (WorkerState.exited, [])
  rw [workerRun_exited]
  rfl

/-- C1: for every pool built by `new` with `size = n ≥ 1`, teardown performs
exactly `n` `Terminate` sends (one per worker), all before any join, and then
joins every one of the `n` workers (ids `0..n`), returning only after all of
them. -/
theorem c1_drop_sends_then_joins_all (n : Nat) (p : ThreadPool)
    (hn : 1 ≤ n) (hp : ThreadPool.new n = .ok p) :
    p.dropActions =
      List.replicate n DropAction.sendTerminate ++
        (List.range n).map DropAction.joinWorker ∧
    p.dropActions.count DropAction.sendTerminate = n ∧
    joinedIds p.dropActions = List.range n := by
  rw [new_ok_of_pos n hn] at hp
  injection hp with h
  subst h
  have hstruct : ThreadPool.dropActions
      { workers := (List.range n).map (fun id => Worker.new id 0), sender := 0 } =
      List.replicate n DropAction.sendTerminate ++
        (List.range n).map DropAction.joinWorker := by
    unfold ThreadPool.dropActions
    refine congrArg₂ (· ++ ·) ?_ ?_
    · rw [List.map_map]
      rw [show ((fun _ => DropAction.sendTerminate) ∘ fun id => Worker.new id 0) =
        (fun _ => DropAction.sendTerminate) from rfl]
      rw [List.map_const', List.length_range]
    · rw [List.filterMap_map]
      exact congrFun (List.filterMap_eq_map DropAction.joinWorker) (List.range n)
  refine ⟨hstruct, ?_, ?_⟩
  · rw [hstruct, List.count_append, List.count_replicate_self]
    have h0 : ((List.range n).map DropAction.joinWorker).count DropAction.sendTerminate = 0 := by
      rw [List.count_eq_zero]
      intro hmem
      obtain ⟨i, _, hbad⟩ := List.mem_map.mp hmem
      exact DropAction.noConfusion hbad
    omega
  · rw [hstruct]
    unfold joinedIds
    rw [List.filterMap_append]
    have hrep : ∀ m, List.filterMap
        (fun a => match a with
          | DropAction.joinWorker i => some i
          | DropAction.sendTerminate => none)
        (List.replicate m DropAction.sendTerminate) = [] := by
      intro m
      induction m with
      | zero => rfl
      | succ k ih => simp only [List.replicate_succ, List.filterMap_cons]; exact ih
    rw [hrep, List.filterMap_map, List.nil_append]
    exact congrFun (List.filterMap_eq_map (fun i => i)) (List.range n) |>.trans
      (List.map_id (List.range n))

/-- Witness for C1 at `n = 2`. -/
theorem c1_drop_sends_then_joins_all_witness :
    1 ≤ 2 ∧
    ∃ p, ThreadPool.new 2 = .ok p ∧
      (p.dropActions =
        List.replicate 2 DropAction.sendTerminate ++
          (List.range 2).map DropAction.joinWorker ∧
      p.dropActions.count DropAction.sendTerminate = 2 ∧
      joinedIds p.dropActions = List.range 2) :=
  ⟨by decide, _, rfl, c1_drop_sends_then_joins_all 2 _ (by decide) rfl⟩

/-- C3 counterexample: with the consuming side torn down, `execute` does not
surface the enqueue failure as an explicit error result — the `unwrap` on the
send error panics the calling thread instead. -/
theorem c3_counterexample_execute_panics :
    ThreadPool.execute { receiverAlive := false, queue := [] } 0 = ExecOutcome.panicked ∧
    ¬ ∃ e, ThreadPool.execute { receiverAlive := false, queue := [] } 0 =
      ExecOutcome.errorResult e := by
  refine ⟨rfl, ?_⟩
  rintro ⟨e, h⟩
  cases e
  exact ExecOutcome.noConfusion h

/-- C3 amended: when `execute` is called after the channel's consuming side
has been torn down, the enqueue fails and the failure is not a silent no-op —
it panics the calling thread (the send error is `unwrap`ped); no error value
is returned to the caller and the call never reports success. -/
theorem c3_amended_execute_after_teardown (st : ChannelState) (job : Nat)
    (h : st.receiverAlive = false) :
    ThreadPool.execute st job = ExecOutcome.panicked ∧
    (∀ st2, ThreadPool.execute st job ≠ ExecOutcome.ok st2) ∧
    (∀ e, ThreadPool.execute st job ≠ ExecOutcome.errorResult e) := by
  have hx : ThreadPool.execute st job = ExecOutcome.panicked := by
    unfold ThreadPool.execute ChannelState.send
    rw [h]
    rfl
  refine ⟨hx, fun st2 hc => ?_, fun e hc => ?_⟩
  · rw [hx] at hc
    exact ExecOutcome.noConfusion hc
  · rw [hx] at hc
    exact ExecOutcome.noConfusion hc

/-- Witness for the amended C3 on a concrete torn-down channel. -/
theorem c3_amended_execute_after_teardown_witness :
    ThreadPool.execute { receiverAlive := false, queue := [Message.terminate] } 7 =
      ExecOutcome.panicked ∧
    (∀ st2, ThreadPool.execute { receiverAlive := false, queue := [Message.terminate] } 7 ≠
      ExecOutcome.ok st2) ∧
    (∀ e, ThreadPool.execute { receiverAlive := false, queue := [Message.terminate] } 7 ≠
      ExecOutcome.errorResult e) :=
  c3_amended_execute_after_teardown { receiverAlive := false, queue := [Message.terminate] } 7 rfl

/-- C6: in each worker-loop iteration, the exclusive access to the shared
receiving endpoint is held only across blocking for and retrieving one
message; it is released immediately after retrieval, and everything that
follows the release (in particular all job execution) happens outside the
lock. -/
theorem c6_lock_released_before_job (m : Message) :
    ∃ rest, workerIterEvents m =
        [LockEvent.acquire, LockEvent.recvMsg m, LockEvent.release] ++ rest ∧
      ∀ e ∈ rest, ∃ j, e = LockEvent.execJob j := by
  cases m with
  | newJob j =>
      refine ⟨[LockEvent.execJob j], rfl, ?_⟩
      intro e he
      rw [List.mem_singleton] at he
      exact ⟨j, he⟩
  | terminate =>
      refine ⟨[], rfl, ?_⟩
      intro e he
      exact absurd he (List.not_mem_nil e)

/-- Witness for C6 on a concrete message. -/
theorem c6_lock_released_before_job_witness :
    ∃ rest, workerIterEvents (Message.newJob 5) =
        [LockEvent.acquire, LockEvent.recvMsg (Message.newJob 5), LockEvent.release] ++ rest ∧
      ∀ e ∈ rest, ∃ j, e = LockEvent.execJob j :=
  c6_lock_released_before_job (Message.newJob 5)

/-- C7: if the request buffer begins with the exact bytes
`"GET / HTTP/1.1\r\n"`, the response has status line `HTTP/1.1 200 OK` and
body equal to the contents of `hello.html`; for every other buffer it has
status line `HTTP/1.1 404 NOT FOUND` and body equal to the contents of
`404.html`. -/
theorem c7_branch_responses (buffer : List Nat) (hello nf : String) :
    (rootRequestLine.isPrefixOf buffer = true →
      handle_connection buffer hello nf =
        "HTTP/1.1 200 OK" ++ "\r\nContent-Length: " ++
          toString hello.utf8ByteSize ++ "\r\n\r\n" ++ hello) ∧
    (rootRequestLine.isPrefixOf buffer = false →
      handle_connection buffer hello nf =
        "HTTP/1.1 404 NOT FOUND" ++ "\r\nContent-Length: " ++
          toString nf.utf8ByteSize ++ "\r\n\r\n" ++ nf) := by
  constructor <;> intro h <;> simp [handle_connection, h]

/-- Witness for C7: the matching prefix alone yields 200, the empty buffer
yields 404. -/
theorem c7_branch_responses_witness :
    handle_connection rootRequestLine "A" "B" =
      "HTTP/1.1 200 OK" ++ "\r\nContent-Length: " ++
        toString ("A" : String).utf8ByteSize ++ "\r\n\r\n" ++ "A" ∧
    handle_connection [] "A" "B" =
      "HTTP/1.1 404 NOT FOUND" ++ "\r\nContent-Length: " ++
        toString ("B" : String).utf8ByteSize ++ "\r\n\r\n" ++ "B" :=
  ⟨(c7_branch_responses rootRequestLine "A" "B").1 (by decide),
   (c7_branch_responses [] "A" "B").2 (by decide)⟩

/-- C8: for every buffer and every possible contents of `hello.html` and
`404.html`, the response is exactly a status line, a single `Content-Length`
header whose value is the byte length of the body, a blank line, and the
body — nothing else, in both branches. -/
theorem c8_response_shape (buffer : List Nat) (hello nf : String) :
    ∃ status body,
      handle_connection buffer hello nf =
        status ++ "\r\nContent-Length: " ++
          toString body.utf8ByteSize ++ "\r\n\r\n" ++ body ∧
      (status = "HTTP/1.1 200 OK" ∨ status = "HTTP/1.1 404 NOT FOUND") ∧
      (body = hello ∨ body = nf) := by
  by_cases h : rootRequestLine.isPrefixOf buffer
  · exact ⟨"HTTP/1.1 200 OK", hello, by simp [handle_connection, h], Or.inl rfl, Or.inl rfl⟩
  · exact ⟨"HTTP/1.1 404 NOT FOUND", nf, by simp [handle_connection, h], Or.inr rfl, Or.inr rfl⟩

/-- The branch test depends only on the first 16 bytes of the buffer. -/
theorem branch_eq_of_take_eq (b1 b2 : List Nat) (h : b1.take 16 = b2.take 16) :
    rootRequestLine.isPrefixOf b1 = rootRequestLine.isPrefixOf b2 := by
  rw [Bool.eq_iff_iff, List.isPrefixOf_iff_prefix, List.isPrefixOf_iff_prefix,
    List.prefix_iff_eq_take, List.prefix_iff_eq_take,
    show rootRequestLine.length = 16 from rfl, h]

/-- C10: only the first 1024 bytes read matter at all; a connection from which
zero bytes are read (all-zero buffer) takes the not-found branch; and two
streams whose filled buffers agree on the first 16 bytes get identical
responses — bytes beyond the matched prefix never change the branch. -/
theorem c10_first_bytes_decide (data1 data2 : List Nat) (hello nf : String)
    (h16 : (readBuffer data1).take 16 = (readBuffer data2).take 16) :
    handle_connection (readBuffer []) hello nf =
      "HTTP/1.1 404 NOT FOUND" ++ "\r\nContent-Length: " ++
        toString nf.utf8ByteSize ++ "\r\n\r\n" ++ nf ∧
    handle_connection (readBuffer data1) hello nf =
      handle_connection (readBuffer data2) hello nf ∧
    handle_connection (readBuffer data1) hello nf =
      handle_connection (readBuffer (data1.take 1024)) hello nf := by
  refine ⟨?_, ?_, ?_⟩
  · have hz : rootRequestLine.isPrefixOf (readBuffer []) = false := by decide
    simp [handle_connection, hz]
  · unfold handle_connection
    rw [branch_eq_of_take_eq (readBuffer data1) (readBuffer data2) h16]
  · have : readBuffer (data1.take 1024) = readBuffer data1 := by
      simp [readBuffer, List.take_take]
    rw [this]

/-- Witness for C10: 20 zero bytes read and zero bytes read fill buffers that
agree on the first 16 bytes. -/
theorem c10_first_bytes_decide_witness :
    handle_connection (readBuffer []) "A" "B" =
      "HTTP/1.1 404 NOT FOUND" ++ "\r\nContent-Length: " ++
        toString ("B" : String).utf8ByteSize ++ "\r\n\r\n" ++ "B" ∧
    handle_connection (readBuffer (List.replicate 20 0)) "A" "B" =
      handle_connection (readBuffer []) "A" "B" ∧
    handle_connection (readBuffer (List.replicate 20 0)) "A" "B" =
      handle_connection (readBuffer ((List.replicate 20 0).take 1024)) "A" "B" :=
  c10_first_bytes_decide (List.replicate 20 0) [] "A" "B" (by decide)

end RustWebServer
